import Mathlib

/-!
# Verification of the node-calibre command facade

Shallow embedding of `src/Calibre.ts` (the `Calibre` class: `exec`, `run`,
`ebookConvert`) together with spec-modelled versions of the two helper
modules (`lib/escape`, `lib/camel-to-kebab`) that are referenced by the
source but whose files are not part of the snapshot.

Strings model JavaScript strings; JS objects used as option mappings are
modelled as association lists in insertion order (a JS object has no
duplicate keys, so theorems that depend on key counting carry a `Nodup`
hypothesis where needed).
-/

namespace NodeCalibre

/-- Modelled from the spec: the helper `lib/escape` is not under `src/`.
Per §4.1 the escaper prefixes each double-quote character and each
backslash character with a backslash, leaving other characters alone. -/
def escapeChars : List Char → List Char
  | [] => []
  | c :: rest =>
    if c = '"' ∨ c = '\\' then '\\' :: c :: escapeChars rest
    else c :: escapeChars rest

/-- Modelled from the spec: string-level wrapper of `escapeChars`. -/
def escape (s : String) : String :=
  String.mk (escapeChars s.data)

/-- Modelled from the spec: the helper `lib/camel-to-kebab` is not under
`src/`. Per §4.2 it turns camel-case into kebab-case
(`libraryPath` → `library-path`): each upper-case letter is replaced by a
hyphen followed by its lower-case form. -/
def camelToKebab (s : String) : String :=
  String.mk (s.data.flatMap fun c => if c.isUpper then ['-', c.toLower] else [c])

/-- A JS option value element: `null` (the no-value marker used by the
serializer) or a primitive coerced to its string form. -/
inductive Value where
  | null
  | prim (s : String)
deriving DecidableEq, Repr

/-- A value in the options mapping: a scalar, or an array of scalars
(`Array.isArray(value) ? value : [value]` in the source). -/
inductive OptValue where
  | single (v : Value)
  | list (vs : List Value)
deriving DecidableEq, Repr

/-- The options mapping of a `run` call: a JS object, modelled as an
association list in insertion order. -/
def Options : Type := List (String × OptValue)

instance : DecidableEq Options := inferInstanceAs (DecidableEq (List (String × OptValue)))

/-- The second parameter of `run`: either an argument array or (by the
parameter-shape polymorphism of lines 64-66) an options object. -/
inductive RunArg where
  | arr (l : List String)
  | obj (m : Options)

/-- JS `Array.prototype.join(' ')`. -/
def joinSp : List String → String
  | [] => ""
  | [s] => s
  | s :: rest => s ++ " " ++ joinSp rest

/-- First binding of a key in an options object. -/
def lookupOpt (k : String) (o : Options) : Option OptValue :=
  List.lookup k o

/-- Drop every binding of a key from an options object. -/
def removeKey (k : String) (o : Options) : Options :=
  List.filter (fun e => e.1 ≠ k) o

/-- Line 70 of the source, `Object.assign({ libraryPath: lib }, o)`: the
target starts with the `libraryPath` default, so that key sits first in
insertion order; a caller-supplied `libraryPath` overrides its value in
place, and all other caller keys follow in their own order. -/
def assignDefaultLib (lib : String) (o : Options) : Options :=
  ("libraryPath", (lookupOpt "libraryPath" o).getD (OptValue.single (Value.prim lib)))
    :: removeKey "libraryPath" o

/-- JS `command.startsWith(prefix)`. -/
def startsWithStr (p s : String) : Bool :=
  p.data.isPrefixOf s.data

/-- The options object actually serialized: the `libraryPath` default is
injected exactly when the command name starts with `calibredb` (line 69). -/
def mergedOptions (lib cmd : String) (o : Options) : Options :=
  if startsWithStr "calibredb" cmd then assignDefaultLib lib o else o

/-- Flag prefixing of lines 87-88: a one-character key yields `-s`, a
longer key yields `--search`. -/
def flagOf (k : String) : String :=
  if k.length = 1 then "-" ++ k else "--" ++ k

/-- One emitted fragment for one element of an option's value
(lines 84-93): the flag, plus ` "<escaped value>"` unless the element is
`null`. -/
def renderOptionElement (k : String) (v : Value) : String :=
  match v with
  | Value.null => flagOf k
  | Value.prim s => flagOf k ++ " \"" ++ escape s ++ "\""

/-- The elements an option value contributes
(`Array.isArray(value) ? value : [value]`, line 82). -/
def optValueElems : OptValue → List Value
  | OptValue.single v => [v]
  | OptValue.list vs => vs

/-- The rendered text of one options entry (lines 77-96): kebab-case the
key, emit one fragment per element, join with single spaces. -/
def renderOption (e : String × OptValue) : String :=
  joinSp ((optValueElems e.2).map (renderOptionElement (camelToKebab e.1)))

/-- A positional argument token: wrapped in double quotes and escaped
(line 75). -/
def argToken (s : String) : String :=
  "\"" ++ escape s ++ "\""

/-- The parameter-shape dispatch of lines 64-66: when the second argument
is a plain object, it becomes the options mapping and the argument array
becomes empty (the third argument is discarded). -/
def dispatch : RunArg → Options → List String × Options
  | RunArg.arr l, o => (l, o)
  | RunArg.obj m, _ => ([], m)

/-- The serialized command string built by `run` (lines 63-97): command,
then quoted arguments, then rendered options, joined with single spaces. -/
def runString (lib cmd : String) (a : RunArg) (o : Options) : String :=
  let p := dispatch a o
  joinSp (cmd :: (p.1.map argToken ++ (mergedOptions lib cmd p.2).map renderOption))

/-- The error value Node's `child_process.exec` hands the callback,
treated as opaque data. -/
structure HostError where
  message : String
deriving DecidableEq, Repr

/-- What the process host reports to the `exec` callback:
`(err, stdout, stderr)`. -/
structure HostReport where
  err : Option HostError
  stdout : String
  stderr : String
deriving DecidableEq, Repr

/-- The settled state of the promise returned by `exec`. -/
inductive ExecOutcome where
  | resolved (stdout : String)
  | rejectedErr (e : HostError)
  | rejectedStderr (s : String)
deriving DecidableEq, Repr

/-- The callback of lines 44-48: `if (err) reject(err); else if (stderr)
reject(stderr); else resolve(stdout)` (an empty string is falsy). -/
def execOutcome (r : HostReport) : ExecOutcome :=
  match r.err with
  | some e => ExecOutcome.rejectedErr e
  | none =>
    if r.stderr = "" then ExecOutcome.resolved r.stdout
    else ExecOutcome.rejectedStderr r.stderr

/-- The fields of Node's `ExecOptions` the spec talks about; an absent
field is `none`. -/
structure ExecOptions where
  maxBuffer : Option Nat := none
  cwd : Option String := none
deriving DecidableEq, Repr

/-- Line 43 of the source, `Object.assign({}, base, override)` on exec
options: a fresh object, per-call fields winning on collision. -/
def mergeExec (base override : ExecOptions) : ExecOptions :=
  { maxBuffer := override.maxBuffer <|> base.maxBuffer
    cwd := override.cwd <|> base.cwd }

/-- The facade's per-instance configuration (fields of the class). -/
structure Calibre where
  execOptions : ExecOptions
  library : String
  log : Bool
deriving DecidableEq, Repr

/-- The constructor's options argument; an omitted property is `none`. -/
structure ConstructorOptions where
  execOptions : Option ExecOptions := none
  library : Option String := none
  log : Option Bool := none

/-- The constructor (lines 28-32): `options.execOptions || { maxBuffer:
2000 * 1024 }`, `options.library || ''`, `options.log || false`. In JS an
object is always truthy, so a supplied exec-options object replaces the
default wholesale. -/
def Calibre.make (o : ConstructorOptions) : Calibre :=
  { execOptions := o.execOptions.getD { maxBuffer := some (2000 * 1024) }
    library := o.library.getD ""
    log := o.log.getD false }

/-- The process host as a collaborator: what `(err, stdout, stderr)` it
reports for a given command string and merged exec options. -/
def Host : Type := String → ExecOptions → HostReport

/-- The method `exec` (lines 39-51) with explicit state passing: it reads
`this.execOptions`, merges the per-call options into a fresh object and
classifies the host's report; it assigns no instance field. -/
def Calibre.execS (c : Calibre) (command : String) (perCall : ExecOptions)
    (host : Host) : Calibre × ExecOutcome :=
  (c, execOutcome (host command (mergeExec c.execOptions perCall)))

/-- The method `run` (lines 63-102) with explicit state passing: build the serialized
string from the instance's library, then delegate to `exec` with the
default (empty) per-call options. -/
def Calibre.runS (c : Calibre) (cmd : String) (a : RunArg) (o : Options)
    (host : Host) : Calibre × ExecOutcome :=
  c.execS (runString c.library cmd a o) {} host

/-- The method `ebookConvert` (lines 111-119) with explicit state passing: compute
`input + '.' + format`, run `ebook-convert` on `[input, output]`, and on
success resolve with the computed output path; a rejection propagates
unchanged. -/
def Calibre.ebookConvertS (c : Calibre) (input format : String) (o : Options)
    (host : Host) : Calibre × ExecOutcome :=
  let output := input ++ "." ++ format
  let r := c.runS "ebook-convert" (RunArg.arr [input, output]) o host
  match r.2 with
  | ExecOutcome.resolved _ => (r.1, ExecOutcome.resolved output)
  | x => (r.1, x)

/-- How many times an option key causes its flag to be emitted: one
emission per element of each of the key's values. -/
def flagEmissions (k : String) (o : Options) : Nat :=
  ((o.filter (fun e => e.1 == k)).map (fun e => (optValueElems e.2).length)).sum

/-- Number of occurrences of `needle` as a contiguous substring of `hay`. -/
def countOcc (needle hay : List Char) : Nat :=
  (List.range hay.length).countP (fun i => needle.isPrefixOf (hay.drop i))

/-- Which characters keep a special meaning after a backslash inside a
POSIX double-quoted token. -/
def dqSpecial (c : Char) : Bool :=
  c = '"' ∨ c = '\\' ∨ c = '$' ∨ c = '`'

/-- Interpret the characters following the opening quote of a double-quoted
shell token: a backslash escapes a special character and is otherwise kept
literally; an unescaped double quote must close the token; an unterminated
token yields `none`. -/
def unqChars : List Char → Option (List Char)
  | [] => none
  | c :: rest =>
    if c = '\\' then
      match rest with
      | [] => none
      | d :: rest2 =>
        if dqSpecial d then (unqChars rest2).map (d :: ·)
        else (unqChars rest2).map (fun l => '\\' :: d :: l)
    else if c = '"' then
      if rest = [] then some [] else none
    else (unqChars rest).map (c :: ·)

/-- Shell interpretation of a full double-quoted token. -/
def unquote (t : String) : Option String :=
  match t.data with
  | '"' :: rest => (unqChars rest).map String.mk
  | _ => none

end NodeCalibre

namespace NodeCalibre

theorem joinSp_cons_cons (s r : String) (rs : List String) :
    joinSp (s :: r :: rs) = s ++ " " ++ joinSp (r :: rs) := rfl

theorem infix_joinSp_of_mem {x : String} :
    ∀ {l : List String}, x ∈ l → x.data <:+: (joinSp l).data := by
  intro l h
  induction l with
  | nil => cases h
  | cons s rest ih =>
    cases h with
    | head =>
      cases rest with
      | nil => exact ⟨[], [], by simp [joinSp]⟩
      | cons r rs =>
        refine ⟨[], (" " ++ joinSp (r :: rs)).data, ?_⟩
        rw [joinSp_cons_cons, String.data_append, String.data_append]
        simp [List.append_assoc]
    | tail _ h' =>
      cases rest with
      | nil => cases h'
      | cons r rs =>
        obtain ⟨p, q, hpq⟩ := ih h'
        refine ⟨(s ++ " ").data ++ p, q, ?_⟩
        rw [joinSp_cons_cons]
        simp only [String.data_append]
        rw [← hpq]
        simp [List.append_assoc]

theorem filter_removeKey_self (k : String) (o : Options) :
    (removeKey k o).filter (fun e => e.1 == k) = [] := by
  rw [removeKey, List.filter_filter, List.filter_eq_nil_iff]
  intro e _
  by_cases h : e.1 = k <;> simp [h]

theorem mergedOptions_calibredb (lib cmd : String) (o : Options)
    (hcmd : startsWithStr "calibredb" cmd = true) :
    mergedOptions lib cmd o = assignDefaultLib lib o := by
  simp [mergedOptions, hcmd]

theorem execOutcome_spec (r : HostReport) :
    (execOutcome r = ExecOutcome.resolved r.stdout ↔ r.err = none ∧ r.stderr = "")
    ∧ (∀ e, execOutcome r = ExecOutcome.rejectedErr e ↔ r.err = some e)
    ∧ (∀ s, execOutcome r = ExecOutcome.rejectedStderr s ↔
        r.err = none ∧ s = r.stderr ∧ s ≠ "") := by
  obtain ⟨err, stdout, stderr⟩ := r
  cases err with
  | none =>
    by_cases hs : stderr = ""
    · subst hs
      refine ⟨by simp [execOutcome], fun e => by simp [execOutcome], fun s => ?_⟩
      simp only [execOutcome]
      constructor
      · intro h
        cases h
      · rintro ⟨-, rfl, hne⟩
        exact absurd rfl hne
    · refine ⟨by simp [execOutcome, hs], fun e => by simp [execOutcome, hs], fun s => ?_⟩
      simp only [execOutcome, if_neg hs]
      constructor
      · intro h
        cases h
        simp [hs]
      · rintro ⟨-, rfl, -⟩
        rfl
  | some e => exact ⟨by simp [execOutcome], fun e' => by simp [execOutcome], fun s => by simp [execOutcome]⟩

theorem flagEmissions_assign (lib : String) (o : Options) :
    flagEmissions "libraryPath" (assignDefaultLib lib o)
      = (optValueElems ((lookupOpt "libraryPath" o).getD
          (OptValue.single (Value.prim lib)))).length := by
  unfold flagEmissions assignDefaultLib
  rw [List.filter_cons_of_pos (by simp)]
  simp [filter_removeKey_self]

theorem infix_runString_head_option (lib cmd : String) (a : RunArg) (o : Options)
    (hcmd : startsWithStr "calibredb" cmd = true) :
    (renderOption ("libraryPath",
        (lookupOpt "libraryPath" (dispatch a o).2).getD (OptValue.single (Value.prim lib)))).data
      <:+: (runString lib cmd a o).data := by
  simp only [runString]
  apply infix_joinSp_of_mem
  rw [mergedOptions_calibredb _ _ _ hcmd, assignDefaultLib]
  simp only [List.map_cons]
  exact List.mem_cons_of_mem _ (List.mem_append_right _ (List.mem_cons_self _ _))

/-- C1: the claim is false on the code: with the default (empty) library
path, a `calibredb` command still gets a `libraryPath` default injected,
and since the empty string is not `null` the serializer emits
`--library-path ""`. Concretely, `run('calibredb')` on a default-constructed
facade serializes to `calibredb --library-path ""`, which does contain the
`--library-path` flag. -/
theorem c1_counterexample :
    runString "" "calibredb" (RunArg.arr []) [] = "calibredb --library-path \"\""
    ∧ "--library-path".data <:+: (runString "" "calibredb" (RunArg.arr []) []).data :=
  ⟨by decide, by decide⟩

/-- C1 (amended): with the default empty library path, every `calibredb`
run call that does not itself pass a `libraryPath` option serializes to a
command containing `--library-path ""` — the empty default does not
suppress the flag. -/
theorem c1_amended_empty_default_emits_flag (cmd : String) (a : RunArg) (o : Options)
    (hcmd : startsWithStr "calibredb" cmd = true)
    (hno : lookupOpt "libraryPath" (dispatch a o).2 = none) :
    ("--library-path \"\"").data <:+: (runString "" cmd a o).data := by
  have hfrag : ("--library-path \"\"" : String)
      = renderOption ("libraryPath", OptValue.single (Value.prim "")) := by decide
  rw [hfrag]
  simp only [runString]
  apply infix_joinSp_of_mem
  rw [mergedOptions_calibredb _ _ _ hcmd, assignDefaultLib, hno]
  simp only [Option.getD_none, List.map_cons]
  exact List.mem_cons_of_mem _ (List.mem_append_right _ (List.mem_cons_self _ _))

/-- C1 (amended) at a concrete input: `calibredb list "x"` on an instance
with the default empty library path serializes with `--library-path ""`. -/
theorem c1_amended_witness :
    startsWithStr "calibredb" "calibredb list" = true
    ∧ lookupOpt "libraryPath" (dispatch (RunArg.arr ["x"]) []).2 = none
    ∧ ("--library-path \"\"").data <:+: (runString "" "calibredb list" (RunArg.arr ["x"]) []).data :=
  ⟨by decide, by decide,
    c1_amended_empty_default_emits_flag "calibredb list" (RunArg.arr ["x"]) [] (by decide) (by decide)⟩

/-- C3: the promise returned by `exec` resolves with captured stdout
exactly when the host reports no error and stderr is empty, rejects with
the host's error object exactly when the host reports one, and rejects
with the raw stderr string exactly when there is no host error but stderr
is non-empty; the outcome is a single value, so exactly one of the three
cases holds per invocation. -/
theorem c3_exec_outcome_trichotomy (c : Calibre) (command : String)
    (perCall : ExecOptions) (host : Host) :
    ((c.execS command perCall host).2
        = ExecOutcome.resolved (host command (mergeExec c.execOptions perCall)).stdout
      ↔ (host command (mergeExec c.execOptions perCall)).err = none
        ∧ (host command (mergeExec c.execOptions perCall)).stderr = "")
    ∧ (∀ e, (c.execS command perCall host).2 = ExecOutcome.rejectedErr e
      ↔ (host command (mergeExec c.execOptions perCall)).err = some e)
    ∧ (∀ s, (c.execS command perCall host).2 = ExecOutcome.rejectedStderr s
      ↔ (host command (mergeExec c.execOptions perCall)).err = none
        ∧ s = (host command (mergeExec c.execOptions perCall)).stderr ∧ s ≠ "") :=
  execOutcome_spec (host command (mergeExec c.execOptions perCall))

/-- C4: `ebookConvert` runs `ebook-convert` on `[input, input + '.' +
format]` with the given options; whenever that run resolves (with any
stdout), `ebookConvert` resolves with exactly `input + '.' + format`, and
whenever it rejects, the same rejection value propagates unchanged. -/
theorem c4_ebookConvert_resolves_output_path (c : Calibre) (i f : String)
    (o : Options) (host : Host) :
    (∀ s, (c.runS "ebook-convert" (RunArg.arr [i, i ++ "." ++ f]) o host).2
          = ExecOutcome.resolved s →
        (c.ebookConvertS i f o host).2 = ExecOutcome.resolved (i ++ "." ++ f))
    ∧ (∀ e, (c.runS "ebook-convert" (RunArg.arr [i, i ++ "." ++ f]) o host).2
          = ExecOutcome.rejectedErr e →
        (c.ebookConvertS i f o host).2 = ExecOutcome.rejectedErr e)
    ∧ (∀ s, (c.runS "ebook-convert" (RunArg.arr [i, i ++ "." ++ f]) o host).2
          = ExecOutcome.rejectedStderr s →
        (c.ebookConvertS i f o host).2 = ExecOutcome.rejectedStderr s) := by
  refine ⟨?_, ?_, ?_⟩ <;> intro x h <;> simp [Calibre.ebookConvertS, h]

/-- C4 at a concrete input: converting `x.epub` to `mobi` under a host
that resolves yields the path `x.epub.mobi`. -/
theorem c4_witness :
    ((Calibre.make {}).runS "ebook-convert" (RunArg.arr ["x.epub", "x.epub" ++ "." ++ "mobi"]) []
        (fun _ _ => { err := none, stdout := "ok", stderr := "" })).2 = ExecOutcome.resolved "ok"
    ∧ ((Calibre.make {}).ebookConvertS "x.epub" "mobi" []
        (fun _ _ => { err := none, stdout := "ok", stderr := "" })).2
      = ExecOutcome.resolved "x.epub.mobi" :=
  ⟨rfl, (c4_ebookConvert_resolves_output_path (Calibre.make {}) "x.epub" "mobi" []
    (fun _ _ => { err := none, stdout := "ok", stderr := "" })).1 "ok" rfl⟩

/-- C5: a plain mapping passed as the second parameter of `run` is treated
as the options mapping with an empty argument list, both for the
serialized string and for the whole call. -/
theorem c5_second_param_polymorphism (lib cmd : String) (m o : Options)
    (c : Calibre) (host : Host) :
    runString lib cmd (RunArg.obj m) o = runString lib cmd (RunArg.arr []) m
    ∧ c.runS cmd (RunArg.obj m) o host = c.runS cmd (RunArg.arr []) m host :=
  ⟨rfl, rfl⟩

/-- C8: no call mutates the facade's configuration: `exec`, `run` and
`ebookConvert` return the instance state exactly as they received it (the
per-call exec-option merge and the `calibredb` default injection both
build fresh values). -/
theorem c8_config_frame (c : Calibre) (command : String) (perCall : ExecOptions)
    (host : Host) (cmd : String) (a : RunArg) (o : Options) (i f : String) :
    (c.execS command perCall host).1 = c
    ∧ (c.runS cmd a o host).1 = c
    ∧ (c.ebookConvertS i f o host).1 = c := by
  refine ⟨rfl, rfl, ?_⟩
  simp only [Calibre.ebookConvertS, Calibre.runS, Calibre.execS]
  split <;> rfl

/-- C2: the claim's "exactly once" is false on the code when the caller
supplies a sequence value for `libraryPath`: the flag is then emitted once
per element. Concretely, `run('calibredb', { libraryPath: ['a','b'] })` on
an instance with library `L` serializes with two `--library-path` flags. -/
theorem c2_counterexample :
    runString "L" "calibredb" (RunArg.arr [])
        [("libraryPath", OptValue.list [Value.prim "a", Value.prim "b"])]
      = "calibredb --library-path \"a\" --library-path \"b\""
    ∧ countOcc "--library-path".data
        (runString "L" "calibredb" (RunArg.arr [])
          [("libraryPath", OptValue.list [Value.prim "a", Value.prim "b"])]).data = 2 :=
  ⟨by decide, by decide⟩

/-- C2 (amended): for a `calibredb`-prefixed command, when the caller
supplies no `libraryPath` option the serialized command contains
`--library-path "<escaped configured path>"` and the flag is emitted
exactly once; when the caller supplies a scalar `libraryPath` value, the
caller's value replaces the default and the flag is still emitted exactly
once (a sequence value instead emits it once per element). -/
theorem c2_amended_library_path_default_and_override (lib cmd : String)
    (a : RunArg) (o : Options)
    (hcmd : startsWithStr "calibredb" cmd = true) :
    (lookupOpt "libraryPath" (dispatch a o).2 = none →
      (renderOption ("libraryPath", OptValue.single (Value.prim lib))).data
          <:+: (runString lib cmd a o).data
      ∧ renderOption ("libraryPath", OptValue.single (Value.prim lib))
          = "--library-path \"" ++ escape lib ++ "\""
      ∧ flagEmissions "libraryPath" (mergedOptions lib cmd (dispatch a o).2) = 1)
    ∧ (∀ v, lookupOpt "libraryPath" (dispatch a o).2 = some (OptValue.single v) →
      (renderOption ("libraryPath", OptValue.single v)).data
          <:+: (runString lib cmd a o).data
      ∧ flagEmissions "libraryPath" (mergedOptions lib cmd (dispatch a o).2) = 1) := by
  constructor
  · intro hno
    refine ⟨?_, ?_, ?_⟩
    · have h := infix_runString_head_option lib cmd a o hcmd
      rw [hno] at h
      simpa using h
    · have h1 : flagOf (camelToKebab "libraryPath") ++ " \"" = "--library-path \"" := by decide
      show flagOf (camelToKebab "libraryPath") ++ " \"" ++ escape lib ++ "\""
          = "--library-path \"" ++ escape lib ++ "\""
      rw [h1]
    · rw [mergedOptions_calibredb _ _ _ hcmd, flagEmissions_assign, hno]
      rfl
  · intro v hv
    constructor
    · have h := infix_runString_head_option lib cmd a o hcmd
      rw [hv] at h
      simpa using h
    · rw [mergedOptions_calibredb _ _ _ hcmd, flagEmissions_assign, hv]
      rfl

/-- C2 (amended) at a concrete input: a caller-supplied scalar
`libraryPath` (`"M"`) overrides the configured library (`"Books"`) and the
flag is emitted exactly once. -/
theorem c2_amended_witness :
    startsWithStr "calibredb" "calibredb add" = true
    ∧ lookupOpt "libraryPath"
        (dispatch (RunArg.arr ["f"]) [("libraryPath", OptValue.single (Value.prim "M"))]).2
      = some (OptValue.single (Value.prim "M"))
    ∧ (renderOption ("libraryPath", OptValue.single (Value.prim "M"))).data
        <:+: (runString "Books" "calibredb add" (RunArg.arr ["f"])
          [("libraryPath", OptValue.single (Value.prim "M"))]).data
    ∧ flagEmissions "libraryPath"
        (mergedOptions "Books" "calibredb add"
          (dispatch (RunArg.arr ["f"]) [("libraryPath", OptValue.single (Value.prim "M"))]).2) = 1 := by
  refine ⟨by decide, by decide, ?_, ?_⟩
  · exact ((c2_amended_library_path_default_and_override "Books" "calibredb add"
      (RunArg.arr ["f"]) [("libraryPath", OptValue.single (Value.prim "M"))]
      (by decide)).2 (Value.prim "M") (by decide)).1
  · exact ((c2_amended_library_path_default_and_override "Books" "calibredb add"
      (RunArg.arr ["f"]) [("libraryPath", OptValue.single (Value.prim "M"))]
      (by decide)).2 (Value.prim "M") (by decide)).2

/-- C6: a `null` option value (or sequence element) emits the bare flag
with no value token, while a non-null value emits the flag followed by a
space and the escaped, double-quoted value, as seen through the full
serializer on a single-entry options mapping. -/
theorem c6_null_and_valued_options (lib cmd k s : String)
    (hc : startsWithStr "calibredb" cmd = false) :
    runString lib cmd (RunArg.arr []) [(k, OptValue.single Value.null)]
        = cmd ++ " " ++ flagOf (camelToKebab k)
    ∧ runString lib cmd (RunArg.arr []) [(k, OptValue.single (Value.prim s))]
        = cmd ++ " " ++ (flagOf (camelToKebab k) ++ " \"" ++ escape s ++ "\"")
    ∧ runString lib cmd (RunArg.arr []) [(k, OptValue.list [Value.prim s, Value.null])]
        = cmd ++ " " ++ (flagOf (camelToKebab k) ++ " \"" ++ escape s ++ "\"" ++ " "
            ++ flagOf (camelToKebab k)) := by
  refine ⟨?_, ?_, ?_⟩ <;>
    simp [runString, mergedOptions, hc, dispatch, renderOption, optValueElems,
      renderOptionElement, joinSp]

/-- C6 at a concrete input: `{ dryRun: null }` yields the bare flag
`--dry-run`, `{ dryRun: 'a"b' }` yields the flag with the escaped quoted
value. -/
theorem c6_witness :
    startsWithStr "calibredb" "ebook-convert" = false
    ∧ runString "L" "ebook-convert" (RunArg.arr []) [("dryRun", OptValue.single Value.null)]
        = "ebook-convert --dry-run"
    ∧ runString "L" "ebook-convert" (RunArg.arr []) [("dryRun", OptValue.single (Value.prim "a\"b"))]
        = "ebook-convert --dry-run \"a\\\"b\"" :=
  ⟨by decide,
    (c6_null_and_valued_options "L" "ebook-convert" "dryRun" "a\"b" (by decide)).1,
    (c6_null_and_valued_options "L" "ebook-convert" "dryRun" "a\"b" (by decide)).2.1⟩

/-- C7: a sequence-valued option emits its (kebab-cased, prefixed) flag
once per element, in element order: the serialized command is the command
followed by one fragment per element, each fragment beginning with the
flag; in particular `{ authors: ["A","B"] }` yields exactly
`--authors "A" --authors "B"`. -/
theorem c7_sequence_value_repeats_flag (lib cmd k : String) (vs : List Value)
    (hc : startsWithStr "calibredb" cmd = false) :
    runString lib cmd (RunArg.arr []) [(k, OptValue.list vs)]
        = cmd ++ " " ++ joinSp (vs.map (renderOptionElement (camelToKebab k)))
    ∧ (vs.map (renderOptionElement (camelToKebab k))).length = vs.length
    ∧ (∀ v ∈ vs, (flagOf (camelToKebab k)).data <+: (renderOptionElement (camelToKebab k) v).data)
    ∧ runString "lib" "x" (RunArg.arr [])
        [("authors", OptValue.list [Value.prim "A", Value.prim "B"])]
      = "x --authors \"A\" --authors \"B\"" := by
  refine ⟨?_, by simp, ?_, by decide⟩
  · simp [runString, mergedOptions, hc, dispatch, renderOption, optValueElems, joinSp]
  · intro v _
    cases v with
    | null => exact List.prefix_refl _
    | prim s =>
      simp only [renderOptionElement, String.data_append, List.append_assoc]
      exact List.prefix_append _ _

/-- C7 at a concrete input: `{ field: ["a", null] }` emits `--field "a"
--field`, one flag per element in order. -/
theorem c7_witness :
    startsWithStr "calibredb" "x2" = false
    ∧ runString "L" "x2" (RunArg.arr []) [("field", OptValue.list [Value.prim "a", Value.null])]
        = "x2 --field \"a\" --field" :=
  ⟨by decide,
    (c7_sequence_value_repeats_flag "L" "x2" "field" [Value.prim "a", Value.null] (by decide)).1⟩

/-- C10: a caller-supplied exec-options object replaces the default
`{ maxBuffer: 2000 * 1024 }` wholesale — one omitting `maxBuffer` leaves
the instance without any buffer cap — while omitting the object entirely
keeps the default cap. -/
theorem c10_execOptions_replaced_not_merged (eo : ExecOptions)
    (lib : Option String) (lg : Option Bool) :
    (Calibre.make ⟨some eo, lib, lg⟩).execOptions = eo
    ∧ (eo.maxBuffer = none → (Calibre.make ⟨some eo, lib, lg⟩).execOptions.maxBuffer = none)
    ∧ (Calibre.make ⟨none, lib, lg⟩).execOptions = { maxBuffer := some (2000 * 1024), cwd := none } :=
  ⟨rfl, fun h => h, rfl⟩

/-- C10 at a concrete input: an exec-options object carrying only `cwd`
leaves the constructed instance with no `maxBuffer` at all. -/
theorem c10_witness :
    ({ maxBuffer := none, cwd := some "/lib" } : ExecOptions).maxBuffer = none
    ∧ (Calibre.make ⟨some { maxBuffer := none, cwd := some "/lib" }, none, none⟩).execOptions.maxBuffer = none :=
  ⟨rfl, (c10_execOptions_replaced_not_merged { maxBuffer := none, cwd := some "/lib" } none none).2.1 rfl⟩

theorem escapeChars_flatMap (l : List Char) :
    escapeChars l = l.flatMap (fun c => if c = '"' ∨ c = '\\' then ['\\', c] else [c]) := by
  induction l with
  | nil => rfl
  | cons c rest ih => by_cases h : c = '"' ∨ c = '\\' <;> simp [escapeChars, h, ih]

theorem unqChars_escapeChars (l : List Char) :
    unqChars (escapeChars l ++ ['"']) = some l := by
  induction l with
  | nil => rfl
  | cons c rest ih =>
    by_cases h : c = '"' ∨ c = '\\'
    · have hd : dqSpecial c = true := by
        rcases h with h | h <;> simp [dqSpecial, h]
      have he : escapeChars (c :: rest) = '\\' :: c :: escapeChars rest := by
        simp [escapeChars, h]
      rw [he]
      simp [unqChars, hd, ih]
    · push_neg at h
      have he : escapeChars (c :: rest) = c :: escapeChars rest := by
        simp [escapeChars, h.1, h.2]
      rw [he]
      have step : unqChars (c :: (escapeChars rest ++ ['"']))
          = (unqChars (escapeChars rest ++ ['"'])).map (c :: ·) := by
        rw [unqChars.eq_def]
        simp [h.1, h.2]
      rw [List.cons_append, step, ih]
      rfl

/-- C9: the escaper prefixes every double quote and every backslash of its
input with a backslash (its output is the character-wise expansion that
doubles exactly those characters), and for every string containing a
double quote or a backslash, escaping it, wrapping the result in double
quotes, and interpreting the token by the shell's double-quote rules
yields the original string back as a single argument. -/
theorem c9_escape_roundtrip (s : String) :
    (escape s).data = s.data.flatMap (fun c => if c = '"' ∨ c = '\\' then ['\\', c] else [c])
    ∧ (('"' ∈ s.data ∨ '\\' ∈ s.data) →
        unquote ("\"" ++ escape s ++ "\"") = some s) := by
  refine ⟨escapeChars_flatMap s.data, fun _ => ?_⟩
  have hdata : ("\"" ++ escape s ++ "\"").data = '"' :: (escapeChars s.data ++ ['"']) := by
    simp [escape, String.data_append]
  rw [unquote, hdata]
  simp [unqChars_escapeChars]

/-- C9 at a concrete input: `a"b\c` contains a double quote, and
escape-quote-unescape reproduces it exactly. -/
theorem c9_witness :
    ('"' ∈ ("a\"b\\c" : String).data ∨ '\\' ∈ ("a\"b\\c" : String).data)
    ∧ unquote ("\"" ++ escape "a\"b\\c" ++ "\"") = some "a\"b\\c" :=
  ⟨by decide, (c9_escape_roundtrip "a\"b\\c").2 (by decide)⟩

end NodeCalibre
